import Mathlib

/-!
Verification of the DataSierra data-analysis assistant.

This file shallowly embeds the service layer of the repository —
`FileService`, `SessionService`, `AuthService`, `FirestoreQueryService`,
`DataService`, the OpenAI client and the Firestore visualization store —
and proves or refutes the frozen claims about it.  Pandas data frames are
modelled as lists of rows of cell values, Python floats as rationals,
Python `datetime` values as natural-number ticks, and every call to an
external library or API is modelled by an explicit outcome argument
(`Except`/`Option`) so that "the exception is caught" becomes a statement
about total Lean functions.
-/

set_option maxHeartbeats 1000000

namespace DataSierra

/-- A cell value of a data table.  `null` models a pandas missing value
(`NaN`/`None`), `num` a numeric cell (Python floats modelled over `ℚ`),
`str` a text cell. -/
inductive Value where
  | null
  | num (q : ℚ)
  | str (s : String)
deriving DecidableEq

/-- Whether a cell is missing (`pd.isnull`). -/
def Value.isNull : Value → Bool
  | .null => true
  | _ => false

/-- Shallow embedding of the pandas `DataFrame` handled by `FileService`
(`src/services/file_service.py`): the column names, the pandas dtype
string of each column (as produced by `str(series.dtype)`), and the rows
of cell values. -/
structure DataFrame where
  columns : List String
  dtypes : List String
  rows : List (List Value)
deriving DecidableEq

/-- A data frame is rectangular: every row has one cell per column. -/
def DataFrame.Rect (df : DataFrame) : Prop :=
  ∀ r ∈ df.rows, r.length = df.columns.length

instance : DecidablePred DataFrame.Rect := fun df =>
  List.decidableBAll _ df.rows

/-- The cell values of column `j` (`df[col]`). -/
def DataFrame.colValues (df : DataFrame) (j : ℕ) : List Value :=
  df.rows.map (fun r => r.getD j Value.null)

/-- `df.isnull().sum().sum()`: the null cells of each column are counted,
and the per-column counts are summed. -/
def DataFrame.totalNulls (df : DataFrame) : ℕ :=
  ((List.range df.columns.length).map
    (fun j => (df.colValues j).countP Value.isNull)).sum

/-- `Series.nunique()` for column `j`: the number of distinct non-null
values (pandas drops missing values). -/
def DataFrame.nuniqueCol (df : DataFrame) (j : ℕ) : ℕ :=
  (((df.colValues j).filter (fun v => !v.isNull)).dedup).length

/-- `df.nunique().sum()`. -/
def DataFrame.nuniqueSum (df : DataFrame) : ℕ :=
  ((List.range df.columns.length).map df.nuniqueCol).sum

/-- One scanning pass of `df.duplicated()` with pandas' default
`keep='first'`: a row counts as duplicated exactly when an identical row
was already seen earlier in the scan. -/
def dupCount (seen : List (List Value)) : List (List Value) → ℕ
  | [] => 0
  | r :: rest => (if r ∈ seen then 1 else 0) + dupCount (r :: seen) rest

/-- `df.duplicated().sum()`. -/
def DataFrame.duplicateRows (df : DataFrame) : ℕ := dupCount [] df.rows

/-- `DataQuality` from `src/models/file_models.py` (the two scores are
Python floats in the source, modelled over `ℚ`). -/
structure DataQuality where
  total_nulls : ℕ
  duplicate_rows : ℕ
  completeness_score : ℚ
  uniqueness_score : ℚ
deriving DecidableEq

/-- `FileService._calculate_data_quality`. -/
def calculateDataQuality (df : DataFrame) : DataQuality :=
  let total_nulls := df.totalNulls
  let duplicate_rows := df.duplicateRows
  let total_cells := df.rows.length * df.columns.length
  { total_nulls := total_nulls
    duplicate_rows := duplicate_rows
    completeness_score :=
      if total_cells > 0 then (1 - (total_nulls : ℚ) / total_cells) * 100 else 0
    uniqueness_score :=
      if total_cells > 0 then (df.nuniqueSum : ℚ) / total_cells * 100 else 0 }

/-- Spec side of C4: the number of null cells of the table, counted row by
row. -/
def numNullCells (df : DataFrame) : ℕ :=
  (df.rows.map (fun r => r.countP Value.isNull)).sum

/-- Spec side of C4: the number of distinct rows of the table.  A row is
"duplicated" when it repeats an earlier row, so the number of duplicated
rows plus the number of distinct rows is the number of rows. -/
def distinctRowCount (df : DataFrame) : ℕ := df.rows.toFinset.card

/-- `pat` is a contiguous run at the start of `s` (character lists). -/
def listStartsWith : List Char → List Char → Bool
  | _, [] => true
  | [], _ :: _ => false
  | a :: s, b :: t => a == b && listStartsWith s t

/-- `pat` occurs contiguously somewhere in the character list. -/
def listHasSub (pat : List Char) : List Char → Bool
  | [] => listStartsWith [] pat
  | c :: t => listStartsWith (c :: t) pat || listHasSub pat t

/-- Python's substring test `pat in s`. -/
def strContains (s pat : String) : Bool := listHasSub pat.toList s.toList

/-- Python's `s.endswith(suff)`. -/
def strEndsWith (s suff : String) : Bool :=
  listStartsWith s.toList.reverse suff.toList.reverse

/-- Python's `s.lower()`. -/
def strLower (s : String) : String := String.mk (s.toList.map Char.toLower)

/-- Ascending sort of the values of a numeric series. -/
def sortRat (l : List ℚ) : List ℚ := l.insertionSort (· ≤ ·)

/-- pandas `Series.quantile` on an ascending list of values: linear
interpolation at fractional position `q * (n - 1)`. -/
def quantileSorted (ys : List ℚ) (q : ℚ) : ℚ :=
  let n := ys.length
  let h : ℚ := q * ((n : ℚ) - 1)
  let i : ℕ := ⌊h⌋.toNat
  let lo := ys.getD i 0
  let hi := ys.getD (min (i + 1) (n - 1)) 0
  lo + (h - (i : ℚ)) * (hi - lo)

/-- pandas `Series.quantile(q)`: missing values are dropped; the quantile
of no data is `NaN`, modelled as `none`. -/
def seriesQuantile (vals : List (Option ℚ)) (q : ℚ) : Option ℚ :=
  let xs := vals.filterMap id
  if xs.isEmpty then none else some (quantileSorted (sortRat xs) q)

/-- pandas `Series.median()`: the middle sorted value, or the mean of the
two middle sorted values; missing values are dropped, the median of no
data is `NaN`, modelled as `none`. -/
def seriesMedian (vals : List (Option ℚ)) : Option ℚ :=
  let xs := vals.filterMap id
  if xs.isEmpty then none
  else
    let ys := sortRat xs
    let n := ys.length
    if n % 2 = 1 then some (ys.getD (n / 2) 0)
    else some ((ys.getD (n / 2 - 1) 0 + ys.getD (n / 2) 0) / 2)

/-- pandas `Series.mean()` (missing values dropped, `NaN` as `none`). -/
def seriesMean (vals : List (Option ℚ)) : Option ℚ :=
  let xs := vals.filterMap id
  if xs.isEmpty then none else some (xs.sum / (xs.length : ℚ))

/-- pandas `Series.min()` (missing values dropped, `NaN` as `none`). -/
def seriesMin (vals : List (Option ℚ)) : Option ℚ :=
  let xs := vals.filterMap id
  if xs.isEmpty then none else some ((sortRat xs).getD 0 0)

/-- pandas `Series.max()` (missing values dropped, `NaN` as `none`). -/
def seriesMax (vals : List (Option ℚ)) : Option ℚ :=
  let xs := vals.filterMap id
  if xs.isEmpty then none else some ((sortRat xs).getD (xs.length - 1) 0)

/-- The `quartiles` sub-dictionary of the numeric branch of
`FileService._get_column_statistics_detailed`. -/
structure Quartiles where
  q1 : Option ℚ
  q2 : Option ℚ
  q3 : Option ℚ
deriving DecidableEq

/-- The numeric branch of `FileService._get_column_statistics_detailed`.
(The standard deviation, a real-valued square root that no claim
mentions, is not carried.) -/
structure NumericDetailed where
  mean : Option ℚ
  median : Option ℚ
  min : Option ℚ
  max : Option ℚ
  quartiles : Quartiles
deriving DecidableEq

/-- The numeric branch of `_get_column_statistics_detailed`: every entry
is `None` when `series.empty`, otherwise the pandas aggregate (which is
itself `NaN`, modelled `none`, when every value is missing). -/
def detailedNumericStats (vals : List (Option ℚ)) : NumericDetailed :=
  if vals.isEmpty then
    { mean := none, median := none, min := none, max := none
      quartiles := { q1 := none, q2 := none, q3 := none } }
  else
    { mean := seriesMean vals
      median := seriesMedian vals
      min := seriesMin vals
      max := seriesMax vals
      quartiles :=
        { q1 := seriesQuantile vals (1/4)
          q2 := seriesQuantile vals (1/2)
          q3 := seriesQuantile vals (3/4) } }

/-- The numeric value of a cell, when it has one. -/
def Value.toNum : Value → Option ℚ
  | .num q => some q
  | _ => none

/-- pandas `Series.value_counts()`: distinct non-null values with their
multiplicities, most frequent first. -/
def valueCounts (vals : List Value) : List (Value × ℕ) :=
  let nonNull := vals.filter (fun v => !v.isNull)
  (nonNull.dedup.map (fun v => (v, nonNull.count v))).insertionSort
    (fun a b => b.2 ≤ a.2)

/-- Model of `pd.api.types.is_numeric_dtype` on the recorded dtype string:
the pandas numeric dtypes are the `int*`/`float*` families. -/
def isNumericDtype (dtype : String) : Bool :=
  strContains dtype "int" || strContains dtype "float"

/-- Model of `pd.api.types.is_categorical_dtype` on the dtype string. -/
def isCategoricalDtype (dtype : String) : Bool := dtype == "category"

/-- Model of `pd.api.types.is_datetime64_any_dtype` on the dtype string. -/
def isDatetimeDtype (dtype : String) : Bool := strContains dtype "datetime"

/-- The `statistics` entry built by
`FileService._get_column_statistics_detailed`: one branch per column
kind, an empty dictionary for any other dtype.  Datetime instants are
modelled as rational day counts. -/
inductive DetailedStats where
  | numeric (s : NumericDetailed)
  | categorical (most_common : List (Value × ℕ))
      (value_distribution : List (Value × ℕ))
  | datetime (earliest latest date_range_days : Option ℚ)
  | emptyDict
deriving DecidableEq

/-- `FileService._get_column_statistics_detailed`, dispatching on the
column's dtype as the source dispatches on the pandas dtype. -/
def getColumnStatisticsDetailed (dtype : String) (vals : List Value) :
    DetailedStats :=
  if isNumericDtype dtype then
    .numeric (detailedNumericStats (vals.map Value.toNum))
  else if isCategoricalDtype dtype || dtype == "object" then
    .categorical ((valueCounts vals).take 3) ((valueCounts vals).take 10)
  else if isDatetimeDtype dtype then
    if vals.isEmpty then .datetime none none none
    else
      let nums := vals.map Value.toNum
      .datetime (seriesMin nums) (seriesMax nums)
        (match seriesMax nums, seriesMin nums with
          | some hi, some lo => some (hi - lo)
          | _, _ => none)
  else .emptyDict

/-- `FileService._get_sample_values`: up to five distinct non-null
values, in first-appearance order. -/
def getSampleValues (vals : List Value) : List Value :=
  let nonNull := vals.filter (fun v => !v.isNull)
  if nonNull.isEmpty then []
  else nonNull.dedup.take (min 5 nonNull.dedup.length)

/-- One entry of the `column_stats` dictionary built by
`FileService._calculate_column_statistics` (percentages over `ℚ`). -/
structure ColStats where
  type : String
  null_count : ℕ
  null_percentage : ℚ
  unique_count : ℕ
  unique_percentage : ℚ
  sample_values : List Value
  statistics : DetailedStats
deriving DecidableEq

/-- `FileService._calculate_column_statistics`. -/
def calculateColumnStatistics (df : DataFrame) : List (String × ColStats) :=
  (List.range df.columns.length).map (fun j =>
    let col := df.colValues j
    let dtype := df.dtypes.getD j ""
    (df.columns.getD j "",
      { type := dtype
        null_count := col.countP Value.isNull
        null_percentage := (col.countP Value.isNull : ℚ) / df.rows.length * 100
        unique_count := df.nuniqueCol j
        unique_percentage := (df.nuniqueCol j : ℚ) / df.rows.length * 100
        sample_values := getSampleValues col
        statistics := getColumnStatisticsDetailed dtype col }))

/-- `FileInfo` from `src/models/file_models.py` (`upload_time` as a tick
count). -/
structure FileInfo where
  name : String
  size : ℕ
  type : String
  upload_time : ℕ
  shape : ℕ × ℕ
  columns : List String
  dtypes : List (String × String)
deriving DecidableEq

/-- `ProcessedFile` from `src/models/file_models.py`; row records
(`to_dict('records')`) are association lists from column name to cell. -/
structure ProcessedFile where
  file_info : FileInfo
  data_quality : DataQuality
  sample_rows : List (List (String × Value))
  column_statistics : List (String × ColStats)
  data_json : List (List (String × Value))
deriving DecidableEq

/-- `ProcessedFile.get_numeric_columns`: the columns whose recorded dtype
string contains `int` or `float`. -/
def getNumericColumns (pf : ProcessedFile) : List String :=
  (pf.column_statistics.filter (fun p =>
    strContains p.2.type "int" || strContains p.2.type "float")).map Prod.fst

/-- `ProcessedFile.get_categorical_columns`: the columns whose recorded
dtype string equals `object`. -/
def getCategoricalColumns (pf : ProcessedFile) : List String :=
  (pf.column_statistics.filter (fun p => p.2.type == "object")).map Prod.fst

/-- The outcome of handing the uploaded bytes to the pandas reader
(`pd.read_csv` / `pd.ExcelFile`): a parsed frame, a reader that returned
`None`, or an exception that escapes into `process_file`'s `try`. -/
inductive ReadResult where
  | ok (df : DataFrame)
  | failed
  | raised (e : String)
deriving DecidableEq

/-- An uploaded file as `FileService` sees it: its name, its byte size,
and what happens when its data is read. -/
structure UploadedFile where
  name : String
  size : ℕ
  read : ReadResult
deriving DecidableEq

/-- `FileService.supported_formats`. -/
def supportedFormats : List String := [".csv", ".xlsx", ".xls"]

/-- `FileService.max_file_size` (200 MB). -/
def maxFileSize : ℕ := 200 * 1024 * 1024

/-- `FileService.validate_file`. -/
def validateFile (file : UploadedFile) : Bool :=
  if file.size > maxFileSize then false
  else if !(supportedFormats.any (fun ext => strEndsWith file.name ext)) then
    false
  else true

/-- `df.empty`: a frame is empty when either axis has length zero. -/
def DataFrame.isEmptyTable (df : DataFrame) : Bool :=
  df.rows.isEmpty || df.columns.isEmpty

/-- `FileService._get_file_type`. -/
def getFileType (filename : String) : String :=
  if strEndsWith filename ".csv" then "csv"
  else if strEndsWith filename ".xlsx" || strEndsWith filename ".xls" then
    "excel"
  else "unknown"

/-- `df.head(n).to_dict('records')` for a single row. -/
def rowRecord (df : DataFrame) (r : List Value) : List (String × Value) :=
  (List.range df.columns.length).map
    (fun j => (df.columns.getD j "", r.getD j Value.null))

/-- The `ProcessedFile` assembled at the end of
`FileService.process_file`. -/
def mkProcessedFile (file : UploadedFile) (now : ℕ) (df : DataFrame) :
    ProcessedFile :=
  { file_info :=
      { name := file.name
        size := file.size
        type := getFileType file.name
        upload_time := now
        shape := (df.rows.length, df.columns.length)
        columns := df.columns
        dtypes := df.columns.zip df.dtypes }
    data_quality := calculateDataQuality df
    sample_rows := (df.rows.take 5).map (rowRecord df)
    column_statistics := calculateColumnStatistics df
    data_json := df.rows.map (rowRecord df) }

/-- What the read step of `process_file` yields: `_read_csv`/`_read_excel`
return `None` on their own caught errors, and an exception raised by the
reader is caught by `process_file`'s catch-all `except`, which also
returns `None`. -/
def readOutcome (file : UploadedFile) : Option DataFrame :=
  match file.read with
  | .ok df => some df
  | .failed => none
  | .raised _ => none

/-- The tail of `process_file` after a reader branch was chosen. -/
def processRead (file : UploadedFile) (now : ℕ) : Option ProcessedFile :=
  match readOutcome file with
  | none => none
  | some df =>
      if df.isEmptyTable then none else some (mkProcessedFile file now df)

/-- `FileService.process_file`. -/
def processFile (file : UploadedFile) (now : ℕ) : Option ProcessedFile :=
  if !(validateFile file) then none
  else if strEndsWith file.name ".csv" then processRead file now
  else if strEndsWith file.name ".xlsx" || strEndsWith file.name ".xls" then
    processRead file now
  else none

/-- `QueryHistory` from `src/models/query_models.py` (timestamps as tick
counts; ids are Python ints, so imported data may choose them freely). -/
structure QueryHistory where
  id : ℤ
  query : String
  response : String
  file_name : String
  timestamp : ℕ
  feedback : Option String
deriving DecidableEq

/-- One feedback record of `SessionService.feedback_data`. -/
structure FeedbackData where
  type : String
  comment : String
  timestamp : ℕ
deriving DecidableEq

/-- A write against the Firestore document store as the session service
would issue one.  No session operation ever reaches its Firestore call:
each first calls `self.auth_service.get_user_uid()`, which raises, so the
write log provably never grows. -/
inductive FirestoreWrite where
  | saveQuery (uid query response file_name : String)
  | updateFeedback (uid : String) (query_id : ℤ) (feedback_type : String)
  | clearQueries (uid : String)
deriving DecidableEq

/-- The state a `SessionService` instance owns, together with the
ambient authentication state (`st.session_state`) it consults and the
log of writes issued to Firestore. -/
structure SessionState where
  query_history : List QueryHistory
  current_query_id : ℤ
  feedback_data : List (ℤ × FeedbackData)
  authenticated : Bool
  user_uid : Option String
  firestore_writes : List FirestoreWrite
deriving DecidableEq

/-- `SessionService.__init__`, for a given ambient authentication state. -/
def initSession (authenticated : Bool) (uid : Option String) : SessionState :=
  { query_history := []
    current_query_id := 0
    feedback_data := []
    authenticated := authenticated
    user_uid := uid
    firestore_writes := [] }

/-- The exception `self.auth_service.get_user_uid()` raises:
`SessionService` holds an `AuthService` (`auth_service.py`), and that
class defines no `get_user_uid` method (only `FirebaseAuthService` in
`firebase_auth.py` does, a class the session service never uses), so the
attribute lookup raises `AttributeError`. -/
def attributeErrorGetUserUid : String :=
  "AttributeError: 'AuthService' object has no attribute 'get_user_uid'"

/-- `SessionService.save_query_history`: append to the local history and
bump the id counter; then, for an authenticated user, the
`get_user_uid()` call raises `AttributeError` out of the method (it has
no try/except), so no Firestore write happens and no query id is
returned — the local mutations persist.  For an unauthenticated user the
assigned query id is returned. -/
def saveQueryHistory (st : SessionState) (query response file_name : String)
    (now : ℕ) : Except String ℤ × SessionState :=
  let query_id := st.current_query_id
  let entry : QueryHistory :=
    { id := query_id, query := query, response := response
      file_name := file_name, timestamp := now, feedback := none }
  let st1 := { st with
    query_history := st.query_history ++ [entry]
    current_query_id := st.current_query_id + 1 }
  if st.authenticated then
    (.error attributeErrorGetUserUid, st1)
  else
    (.ok query_id, st1)

/-- Python's `l[-limit:]` for a natural `limit`: the last `limit`
elements — and the whole list when `limit = 0`, since `l[-0:]` is
`l[0:]`. -/
def sliceLast {α : Type} (l : List α) (limit : ℕ) : List α :=
  if limit = 0 then l else l.drop (l.length - limit)

/-- The local-memory fallback of `SessionService.get_query_history`:
optional substring filtering (Python treats an empty search term as
absent), then the last `limit` entries, most recent first. -/
def localQueryHistory (st : SessionState) (limit : ℕ)
    (search_term : Option String) : List QueryHistory :=
  let filtered :=
    match search_term with
    | some term =>
        if term == "" then st.query_history
        else
          st.query_history.filter (fun item =>
            strContains (strLower item.query) (strLower term)
            || strContains (strLower item.response) (strLower term))
    | none => st.query_history
  (sliceLast filtered limit).reverse

/-- `SessionService.get_query_history`: for an authenticated user the
`get_user_uid()` call raises `AttributeError` out of the method (no
try/except), so Firestore is never consulted; unauthenticated users are
served from local memory. -/
def getQueryHistory (st : SessionState) (limit : ℕ)
    (search_term : Option String) : Except String (List QueryHistory) :=
  if st.authenticated then .error attributeErrorGetUserUid
  else .ok (localQueryHistory st limit search_term)

/-- `SessionService.get_query_by_id`: for an authenticated user the
`get_user_uid()` call raises `AttributeError` (no try/except in this
method); unauthenticated users get the first local match. -/
def getQueryById (st : SessionState) (query_id : ℤ) :
    Except String (Option QueryHistory) :=
  if st.authenticated then .error attributeErrorGetUserUid
  else .ok (st.query_history.find? (fun q => q.id == query_id))

/-- Python dict assignment `feedback_data[query_id] = v`: replace in
place, or append a new key. -/
def setFeedback (fd : List (ℤ × FeedbackData)) (k : ℤ) (v : FeedbackData) :
    List (ℤ × FeedbackData) :=
  if fd.any (fun p => p.1 == k) then
    fd.map (fun p => if p.1 == k then (k, v) else p)
  else fd ++ [(k, v)]

/-- Mutating `query.feedback` on the first locally found entry with the
given id (the loop in `get_query_by_id` returns the first match). -/
def updateFeedbackFirst (l : List QueryHistory) (query_id : ℤ)
    (fb : String) : List QueryHistory :=
  match l with
  | [] => []
  | q :: t =>
      if q.id == query_id then { q with feedback := some fb } :: t
      else q :: updateFeedbackFirst t query_id fb

/-- `SessionService.submit_feedback`: the feedback dictionary entry is
set first; then `get_query_by_id` is called inside this method's
try/except.  For an authenticated user that call raises
`AttributeError`, which the except block catches, returning `False` with
no local feedback update and no Firestore write.  For an unauthenticated
user the first matching local entry gets the feedback and the method
returns `True` (the Firestore branch is not taken). -/
def submitFeedback (st : SessionState) (query_id : ℤ)
    (feedback_type comment : String) (now : ℕ) : Bool × SessionState :=
  let fd := setFeedback st.feedback_data query_id
    { type := feedback_type, comment := comment, timestamp := now }
  if st.authenticated then
    (false, { st with feedback_data := fd })
  else
    (true,
      { st with
          feedback_data := fd
          query_history :=
            updateFeedbackFirst st.query_history query_id feedback_type })

/-- `SessionService.clear_history`: the local state is cleared first;
then, for an authenticated user, `get_user_uid()` raises
`AttributeError` inside the try, which is caught — `False` is returned
and no Firestore clear is issued, with the local clear already done.
For an unauthenticated user the method returns `True`. -/
def clearHistory (st : SessionState) : Bool × SessionState :=
  let st1 :=
    { st with
        query_history := []
        feedback_data := []
        current_query_id := 0 }
  if st.authenticated then (false, st1) else (true, st1)

/-- One raw entry of an exported history being imported.  `timestampRaw`
is `none` when the stored timestamp string is one
`datetime.fromisoformat` rejects, which raises inside the import loop. -/
structure RawEntry where
  id : ℤ
  query : String
  response : String
  file_name : String
  timestampRaw : Option ℕ
  feedback : Option String
deriving DecidableEq

/-- The exported-data dictionary handed to
`SessionService.import_history`: either top-level key may be absent. -/
structure ImportData where
  query_history : Option (List RawEntry)
  feedback_data : Option (List (ℤ × FeedbackData))
deriving DecidableEq

/-- The entry-building loop of `import_history`: entries are appended one
by one; a timestamp `fromisoformat` rejects raises, abandoning the loop
with the entries built so far already stored. -/
def importLoop : List RawEntry → List QueryHistory →
    Bool × List QueryHistory
  | [], acc => (true, acc)
  | e :: rest, acc =>
      match e.timestampRaw with
      | none => (false, acc)
      | some ts =>
          importLoop rest (acc ++
            [{ id := e.id, query := e.query, response := e.response
               file_name := e.file_name, timestamp := ts
               feedback := e.feedback }])

/-- `max(query.id for query in self.query_history) + 1`, or `0` for an
empty history. -/
def maxIdPlusOne (hist : List QueryHistory) : ℤ :=
  match hist.map QueryHistory.id with
  | [] => 0
  | i :: is => is.foldl max i + 1

/-- `SessionService.import_history`.  On an entry the loop cannot parse,
the exception is caught and `False` returned — but the history list was
already replaced by the partial import, and `current_query_id` was not
yet recomputed. -/
def importHistory (st : SessionState) (data : ImportData) :
    Bool × SessionState :=
  match data.query_history with
  | some raws =>
      let res := importLoop raws []
      if res.1 then
        let st1 :=
          { st with
              query_history := res.2
              current_query_id := maxIdPlusOne res.2 }
        let st2 :=
          match data.feedback_data with
          | some fd => { st1 with feedback_data := fd }
          | none => st1
        (true, st2)
      else (false, { st with query_history := res.2 })
  | none =>
      match data.feedback_data with
      | some fd => (true, { st with feedback_data := fd })
      | none => (true, st)

/-- The id invariant of C9: every stored entry's id is strictly below the
counter. -/
def SessionInv (st : SessionState) : Prop :=
  ∀ e ∈ st.query_history, e.id < st.current_query_id

instance : DecidablePred SessionInv := fun st =>
  List.decidableBAll _ st.query_history

/-- The user record the Firebase call returns on success. -/
structure AuthUser where
  localId : String
  email : String
  idToken : String
  refreshToken : String
deriving DecidableEq

/-- The user dictionary `AuthService` stores in `st.session_state`. -/
structure SessionUser where
  uid : String
  email : String
  idToken : String
  refreshToken : String
deriving DecidableEq

/-- The error→message mapping of `AuthService.sign_up`'s `except` block:
recognized Firebase error substrings get fixed messages, anything else a
generic message embedding the error text. -/
def signUpErrorMessage (error_msg : String) : String :=
  if strContains error_msg "EMAIL_EXISTS" then
    "An account with this email already exists"
  else if strContains error_msg "WEAK_PASSWORD" then
    "Password should be at least 6 characters"
  else if strContains error_msg "INVALID_EMAIL" then
    "Please enter a valid email address"
  else "Sign up failed: " ++ error_msg

/-- `AuthService.sign_up`: `authReady` is whether `self.auth` was
initialized, `outcome` what `create_user_with_email_and_password` does.
Returns the `(success, message)` tuple and the session user stored. -/
def signUp (authReady : Bool) (outcome : Except String AuthUser) :
    (Bool × String) × Option SessionUser :=
  if !authReady then
    ((false, "Firebase authentication not initialized"), none)
  else
    match outcome with
    | .ok user =>
        ((true, "Account created successfully!"),
          some { uid := user.localId, email := user.email
                 idToken := user.idToken, refreshToken := user.refreshToken })
    | .error e => ((false, signUpErrorMessage e), none)

/-- The error→message mapping of `AuthService.sign_in`'s `except` block. -/
def signInErrorMessage (error_msg : String) : String :=
  if strContains error_msg "INVALID_PASSWORD" then "Invalid password"
  else if strContains error_msg "EMAIL_NOT_FOUND" then
    "No account found with this email"
  else if strContains error_msg "INVALID_EMAIL" then
    "Please enter a valid email address"
  else if strContains error_msg "USER_DISABLED" then
    "This account has been disabled"
  else "Sign in failed: " ++ error_msg

/-- `AuthService.sign_in`. -/
def signIn (authReady : Bool) (outcome : Except String AuthUser) :
    (Bool × String) × Option SessionUser :=
  if !authReady then
    ((false, "Firebase authentication not initialized"), none)
  else
    match outcome with
    | .ok user =>
        ((true, "Signed in successfully!"),
          some { uid := user.localId, email := user.email
                 idToken := user.idToken, refreshToken := user.refreshToken })
    | .error e => ((false, signInErrorMessage e), none)

/-- `FirestoreQueryService.save_query`: `dbReady` is whether the
Firestore client exists, `outcome` what the `add` call does (the new
document id on success).  Any exception yields `None`. -/
def fsSaveQuery (dbReady : Bool) (outcome : Except String String) :
    Option String :=
  if !dbReady then none
  else
    match outcome with
    | .ok docId => some docId
    | .error _ => none

/-- `VisualizationService.save_visualization` (same defensive shape). -/
def saveVisualization (dbReady : Bool) (outcome : Except String String) :
    Option String :=
  if !dbReady then none
  else
    match outcome with
    | .ok docId => some docId
    | .error _ => none

/-- The successful payload of an OpenAI chat-completion call. -/
structure OpenAIResponse where
  answer : String
  total_tokens : ℕ
deriving DecidableEq

/-- The dictionary `OpenAIClient.query_openai_with_data_context`
returns. -/
structure OpenAIResult where
  success : Bool
  answer : String
  tokens_used : Option ℕ
  error : Option String
deriving DecidableEq

/-- `OpenAIClient.query_openai_with_data_context`: the API call's outcome
is caught and surfaced as a success-flagged dictionary. -/
def queryOpenAIWithDataContext (outcome : Except String OpenAIResponse) :
    OpenAIResult :=
  match outcome with
  | .ok resp =>
      { success := true, answer := resp.answer
        tokens_used := some resp.total_tokens, error := none }
  | .error e =>
      { success := false
        answer := "Sorry, I encountered an error while processing your request."
        tokens_used := none, error := some e }

/-- The dynamic Python value a service operation returns, classified by
shape: `None`, a `(success, message)` tuple, a `ProcessedFile`, a
document id string, or a success-flagged dictionary. -/
inductive PyValue where
  | noneValue
  | pair (ok : Bool) (msg : String)
  | processed (pf : ProcessedFile)
  | docId (s : String)
  | flaggedDict (r : OpenAIResult)
deriving DecidableEq

/-- Claim side of C1: the value is a success/failure tuple. -/
def isSuccessFailureTuple : PyValue → Bool
  | .pair _ _ => true
  | _ => false

/-- The Python value `FileService.process_file` returns. -/
def processFilePy (file : UploadedFile) (now : ℕ) : PyValue :=
  match processFile file now with
  | none => .noneValue
  | some pf => .processed pf

/-- The Python value `FirestoreQueryService.save_query` returns. -/
def fsSaveQueryPy (dbReady : Bool) (outcome : Except String String) :
    PyValue :=
  match fsSaveQuery dbReady outcome with
  | none => .noneValue
  | some d => .docId d

/-- The Python value `AuthService.sign_up` returns. -/
def signUpPy (authReady : Bool) (outcome : Except String AuthUser) :
    PyValue :=
  .pair (signUp authReady outcome).1.1 (signUp authReady outcome).1.2

/-- The Python value `query_openai_with_data_context` returns. -/
def queryOpenAIPy (outcome : Except String OpenAIResponse) : PyValue :=
  .flaggedDict (queryOpenAIWithDataContext outcome)

/-- Python's `repr` of a list of strings, as an f-string renders it. -/
def pyListRepr (l : List String) : String :=
  "[" ++ String.intercalate ", " (l.map (fun s => "'" ++ s ++ "'")) ++ "]"

/-- `DataService._generate_correlation_code`. -/
def generateCorrelationCode (numeric_cols : List String) : String :=
  "\n# Correlation analysis\nnumeric_cols = " ++ pyListRepr numeric_cols
    ++ "\ncorrelation_matrix = df[numeric_cols].corr()\n\n"
    ++ "# Visualize correlations\nplt.figure(figsize=(10, 8))\n"
    ++ "sns.heatmap(correlation_matrix, annot=True, cmap='coolwarm', center=0)\n"
    ++ "plt.title('Correlation Matrix')\nplt.show()\n\n"
    ++ "# Find strong correlations\n"
    ++ "strong_correlations = correlation_matrix[abs(correlation_matrix) > 0.7]\n"
    ++ "print(\"Strong correlations (>0.7):\")\nprint(strong_correlations)\n"

/-- `DataService._generate_distribution_code`. -/
def generateDistributionCode (numeric_cols : List String) : String :=
  "\n# Distribution analysis\nnumeric_cols = " ++ pyListRepr numeric_cols
    ++ "\n\n# Create distribution plots\nfig, axes = plt.subplots(1, "
    ++ toString (min 3 numeric_cols.length) ++ ", figsize=(15, 5))\n"
    ++ "for i, col in enumerate(numeric_cols):\n"
    ++ "    axes[i].hist(df[col].dropna(), bins=30, alpha=0.7)\n"
    ++ "    axes[i].set_title(f'Distribution of {col}')\n"
    ++ "    axes[i].set_xlabel(col)\n    axes[i].set_ylabel('Frequency')\n\n"
    ++ "plt.tight_layout()\nplt.show()\n\n"
    ++ "# Box plots for outlier detection\n"
    ++ "df[numeric_cols].boxplot(figsize=(12, 6))\n"
    ++ "plt.title('Box Plots for Outlier Detection')\n"
    ++ "plt.xticks(rotation=45)\nplt.show()\n"

/-- `DataService._generate_categorical_code`. -/
def generateCategoricalCode (categorical_cols : List String) : String :=
  "\n# Categorical analysis\nfig, axes = plt.subplots(1, "
    ++ toString (min 2 categorical_cols.length) ++ ", figsize=(12, 5))\n"
    ++ "for i, col in enumerate(categorical_cols):\n"
    ++ "    value_counts = df[col].value_counts().head(10)\n"
    ++ "    axes[i].bar(range(len(value_counts)), value_counts.values)\n"
    ++ "    axes[i].set_title(f'Top 10 values in {col}')\n"
    ++ "    axes[i].set_xlabel(col)\n    axes[i].set_ylabel('Count')\n"
    ++ "    axes[i].set_xticks(range(len(value_counts)))\n"
    ++ "    axes[i].set_xticklabels(value_counts.index, rotation=45)\n"
    ++ "plt.tight_layout()\nplt.show()\n"

/-- A visualization suggestion produced by
`DataService.generate_visualizations`. -/
structure VizSuggestion where
  type : String
  title : String
  description : String
  columns : List String
  code : String
deriving DecidableEq

/-- A code suggestion produced by
`DataService.generate_code_suggestions`. -/
structure CodeSuggestion where
  title : String
  code : String
  description : String
deriving DecidableEq

/-- The per-file body of the loop in
`DataService.generate_visualizations`. -/
def vizForFile (question_lower : String) (file_name : String)
    (pf : ProcessedFile) : List VizSuggestion :=
  let numeric_cols := getNumericColumns pf
  let categorical_cols := getCategoricalColumns pf
  (if strContains question_lower "correlation" && numeric_cols.length ≥ 2 then
    [{ type := "heatmap"
       title := "Correlation Matrix - " ++ file_name
       description := "Heatmap showing correlations between numeric variables"
       columns := numeric_cols.take 5
       code := generateCorrelationCode (numeric_cols.take 5) }]
  else [])
  ++ (if (strContains question_lower "distribution"
        || strContains question_lower "pattern")
        && !numeric_cols.isEmpty then
    [{ type := "histogram"
       title := "Distribution Analysis - " ++ file_name
       description := "Histograms showing distributions of numeric variables"
       columns := numeric_cols.take 3
       code := generateDistributionCode (numeric_cols.take 3) }]
  else [])
  ++ (if !categorical_cols.isEmpty
        && (strContains question_lower "category"
          || strContains question_lower "count") then
    [{ type := "bar_chart"
       title := "Categorical Analysis - " ++ file_name
       description := "Bar chart showing value counts for categorical variables"
       columns := categorical_cols.take 2
       code := generateCategoricalCode (categorical_cols.take 2) }]
  else [])

/-- `DataService.generate_visualizations`: at most three suggestions,
none for an empty file dictionary. -/
def generateVisualizations (processed_files : List (String × ProcessedFile))
    (user_question : String) : List VizSuggestion :=
  if processed_files.isEmpty then []
  else
    let question_lower := strLower user_question
    (processed_files.flatMap
      (fun p => vizForFile question_lower p.1 p.2)).take 3

/-- The constant first suggestion of
`DataService.generate_code_suggestions`. -/
def basicOverviewSuggestion : CodeSuggestion :=
  { title := "Basic Data Overview"
    code := "\n# Basic data overview\nimport pandas as pd\n"
      ++ "import matplotlib.pyplot as plt\nimport seaborn as sns\n\n"
      ++ "# Load your data\n"
      ++ "df = pd.read_csv('your_file.csv')  # or pd.read_excel('your_file.xlsx')\n\n"
      ++ "# Basic info\nprint(\"Dataset shape:\", df.shape)\n"
      ++ "print(\"\\nColumn types:\")\nprint(df.dtypes)\n"
      ++ "print(\"\\nMissing values:\")\nprint(df.isnull().sum())\n"
      ++ "print(\"\\nBasic statistics:\")\nprint(df.describe())\n"
    description := "Get a comprehensive overview of your dataset" }

/-- `DataService.generate_code_suggestions`: the basic overview first,
then the first file with two numeric columns (correlation), then the
first file with a numeric column (distribution), truncated to three. -/
def generateCodeSuggestions (processed_files : List (String × ProcessedFile)) :
    List CodeSuggestion :=
  let corr :=
    match processed_files.find?
        (fun p => (getNumericColumns p.2).length ≥ 2) with
    | some (file_name, pf) =>
        [{ title := "Correlation Analysis - " ++ file_name
           code := generateCorrelationCode ((getNumericColumns pf).take 5)
           description := "Analyze correlations between numeric variables in "
             ++ file_name }]
    | none => []
  let distr :=
    match processed_files.find?
        (fun p => !(getNumericColumns p.2).isEmpty) with
    | some (file_name, pf) =>
        [{ title := "Distribution Analysis - " ++ file_name
           code := generateDistributionCode ((getNumericColumns pf).take 3)
           description := "Analyze distributions and detect outliers in "
             ++ file_name }]
    | none => []
  (basicOverviewSuggestion :: (corr ++ distr)).take 3

/-- A small CSV upload whose read raises inside the pandas reader. -/
def fBad : UploadedFile := { name := "data.csv", size := 10, read := .raised "boom" }

/-- A three-row, two-column frame used to instantiate the data-quality
theorems: one null cell, one duplicated row. -/
def dfEx : DataFrame :=
  { columns := ["a", "b"], dtypes := ["int64", "object"]
    rows := [[.num 1, .null], [.num 1, .str "x"], [.num 1, .str "x"]] }

/-- A processed file over `dfEx`, with one numeric and one object
column. -/
def pfEx : ProcessedFile :=
  { file_info :=
      { name := "t.csv", size := 1, type := "csv", upload_time := 0
        shape := (3, 2), columns := ["a", "b"]
        dtypes := [("a", "int64"), ("b", "object")] }
    data_quality := calculateDataQuality dfEx
    sample_rows := []
    column_statistics := calculateColumnStatistics dfEx
    data_json := [] }

/-- An authenticated session state with a user UID. -/
def stAuth : SessionState :=
  { query_history := [], current_query_id := 0, feedback_data := []
    authenticated := true, user_uid := some "uid1", firestore_writes := [] }

/-- Exported data whose second entry has a timestamp
`datetime.fromisoformat` rejects: the import loop dies halfway. -/
def importBad : ImportData :=
  { query_history := some
      [{ id := 5, query := "q", response := "r", file_name := "f"
         timestampRaw := some 0, feedback := none },
       { id := 6, query := "q2", response := "r2", file_name := "f2"
         timestampRaw := none, feedback := none }]
    feedback_data := none }

/-- Sums over a list distribute over pointwise addition. -/
theorem sum_map_add_distrib {α : Type} (l : List α) (f g : α → ℕ) :
    (l.map (fun x => f x + g x)).sum = (l.map f).sum + (l.map g).sum := by
  induction l with
  | nil => simp
  | cons a t ih => simp [ih]; ring

/-- Counting a predicate over the positions of a list equals `countP`. -/
theorem sum_indicator_eq_countP (p : Value → Bool) (r : List Value) :
    ((List.range r.length).map
      (fun j => if p (r.getD j Value.null) then 1 else 0)).sum
      = r.countP p := by
  induction r with
  | nil => simp
  | cons v t ih =>
    rw [List.length_cons, List.range_succ_eq_map, List.map_cons, List.map_map,
      List.sum_cons]
    have hcomp : ((fun j => if p ((v :: t).getD j Value.null) then 1 else 0)
          ∘ Nat.succ)
        = (fun j => if p (t.getD j Value.null) then 1 else 0) := by
      funext j; simp
    rw [hcomp, ih, List.countP_cons]
    simp only [List.getD_cons_zero]
    omega

/-- Column-by-column null counting (the source's
`df.isnull().sum().sum()`) agrees with the row-by-row cell count on
rectangular tables. -/
theorem totalNulls_eq_numNullCells (df : DataFrame) (h : df.Rect) :
    df.totalNulls = numNullCells df := by
  unfold DataFrame.totalNulls numNullCells DataFrame.colValues
  obtain ⟨columns, dtypes, rows⟩ := df
  simp only [DataFrame.Rect] at h
  simp only at h ⊢
  induction rows with
  | nil => simp
  | cons r rest ih =>
    have hr : r.length = columns.length := h r (List.mem_cons_self _ _)
    have hrest : ∀ x ∈ rest, x.length = columns.length :=
      fun x hx => h x (List.mem_cons_of_mem _ hx)
    simp only [List.map_cons, List.countP_cons, List.sum_cons]
    rw [sum_map_add_distrib (List.range columns.length)
        (fun j => List.countP Value.isNull
          (List.map (fun x => x.getD j Value.null) rest))
        (fun j => if (r.getD j Value.null).isNull then 1 else 0),
      ih hrest, ← hr, sum_indicator_eq_countP]
    omega

/-- The scanning pass of `df.duplicated()` counts exactly the rows beyond
one representative per distinct row: duplicated rows plus new distinct
rows add up to the number of rows. -/
theorem dupCount_add_card (l : List (List Value)) :
    ∀ seen : List (List Value),
      dupCount seen l + (l.toFinset \ seen.toFinset).card = l.length := by
  induction l with
  | nil => intro seen; simp [dupCount]
  | cons r t ih =>
    intro seen
    by_cases hmem : r ∈ seen
    · have hset : r ∈ seen.toFinset := List.mem_toFinset.mpr hmem
      rw [dupCount, if_pos hmem, List.toFinset_cons,
        Finset.insert_sdiff_of_mem _ hset]
      have := ih (r :: seen)
      rw [List.toFinset_cons, Finset.insert_eq_self.mpr hset] at this
      rw [List.length_cons]
      omega
    · have hset : r ∉ seen.toFinset := fun hc => hmem (List.mem_toFinset.mp hc)
      rw [dupCount, if_neg hmem, List.toFinset_cons]
      have hins : insert r t.toFinset \ seen.toFinset
          = insert r (t.toFinset \ seen.toFinset) :=
        Finset.insert_sdiff_of_not_mem _ hset
      have := ih (r :: seen)
      rw [List.toFinset_cons] at this
      have herase : t.toFinset \ insert r seen.toFinset
          = (t.toFinset \ seen.toFinset).erase r := by
        ext x
        simp only [Finset.mem_sdiff, Finset.mem_insert, Finset.mem_erase]
        tauto
      rw [herase] at this
      set X := t.toFinset \ seen.toFinset with hX
      have hcard : (insert r X).card = (X.erase r).card + 1 := by
        by_cases hrX : r ∈ X
        · rw [Finset.insert_eq_self.mpr hrX, Finset.card_erase_of_mem hrX]
          have : 0 < X.card := Finset.card_pos.mpr ⟨r, hrX⟩
          omega
        · rw [Finset.card_insert_of_not_mem hrX,
            Finset.erase_eq_of_not_mem hrX]
      rw [hins, hcard, List.length_cons]
      omega

/-- `⌊k + 1/2⌋ = k` for a natural `k`, over `ℚ`. -/
theorem floor_natCast_add_half (k : ℕ) : ⌊(k : ℚ) + 1/2⌋ = k := by
  rw [show ((k : ℚ) + 1/2) = ((k : ℤ) : ℚ) + (1/2 : ℚ) by push_cast; ring,
    Int.floor_int_add]
  norm_num

/-- On a nonempty list, pandas' linearly interpolated quantile at `1/2`
is the classic middle-of-the-list median. -/
theorem quantileSorted_half (ys : List ℚ) (hn : ys.length ≠ 0) :
    quantileSorted ys (1/2)
      = if ys.length % 2 = 1 then ys.getD (ys.length / 2) 0
        else (ys.getD (ys.length / 2 - 1) 0 + ys.getD (ys.length / 2) 0) / 2 := by
  simp only [quantileSorted]
  rcases Nat.even_or_odd ys.length with he | ho
  · obtain ⟨m, hm⟩ := he
    have hm1 : 1 ≤ m := by omega
    have hmod : ¬ ys.length % 2 = 1 := by omega
    have hcast : ((m - 1 : ℕ) : ℚ) = (m : ℚ) - 1 := Nat.cast_sub hm1
    have hl : (ys.length : ℚ) = 2 * (m : ℚ) := by
      rw [hm]; push_cast; ring
    have hh : (1/2 : ℚ) * ((ys.length : ℚ) - 1) = ((m - 1 : ℕ) : ℚ) + 1/2 := by
      rw [hl, hcast]; ring
    rw [hh, floor_natCast_add_half, Int.toNat_natCast]
    have hidx : m - 1 + 1 = m := by omega
    have hmin : min (m - 1 + 1) (ys.length - 1) = m := by
      rw [hidx]; omega
    have hdiv : ys.length / 2 = m := by omega
    rw [hmin, if_neg hmod, hdiv]
    ring
  · obtain ⟨m, hm⟩ := ho
    have hmod : ys.length % 2 = 1 := by omega
    have hl : (ys.length : ℚ) = 2 * (m : ℚ) + 1 := by
      rw [hm]; push_cast; ring
    have hh : (1/2 : ℚ) * ((ys.length : ℚ) - 1) = ((m : ℕ) : ℚ) := by
      rw [hl]; ring
    rw [hh, Int.floor_natCast, Int.toNat_natCast]
    have hdiv : ys.length / 2 = m := by omega
    rw [if_pos hmod, hdiv]
    ring

/-- `series.median()` and `series.quantile(0.5)` agree on every series:
the two pandas routines compute the same value. -/
theorem seriesMedian_eq_quantile_half (vals : List (Option ℚ)) :
    seriesMedian vals = seriesQuantile vals (1/2) := by
  simp only [seriesMedian, seriesQuantile]
  cases hxs : (vals.filterMap id).isEmpty
  · have hn : (sortRat (vals.filterMap id)).length ≠ 0 := by
      rw [sortRat, List.length_insertionSort]
      intro hc
      rw [List.length_eq_zero] at hc
      rw [hc] at hxs
      simp at hxs
    simp only [Bool.false_eq_true, if_false]
    rw [quantileSorted_half _ hn]
    exact (apply_ite _ _ _ _).symm
  · simp

/-- In an association list with nodup keys, a key determines its value. -/
theorem keyVal_unique {β : Type} {l : List (String × β)}
    (h : (l.map Prod.fst).Nodup) {k : String} {a b : β}
    (ha : (k, a) ∈ l) (hb : (k, b) ∈ l) : a = b := by
  induction l with
  | nil => cases ha
  | cons p t ih =>
    rw [List.map_cons, List.nodup_cons] at h
    rcases List.mem_cons.mp ha with ha1 | ha2
    · rcases List.mem_cons.mp hb with hb1 | hb2
      · rw [← ha1] at hb1
        exact ((Prod.mk.injEq _ _ _ _).mp hb1).2.symm
      · rw [← ha1] at h
        exact absurd (List.mem_map.mpr ⟨(k, b), hb2, rfl⟩) h.1
    · rcases List.mem_cons.mp hb with hb1 | hb2
      · rw [← hb1] at h
        exact absurd (List.mem_map.mpr ⟨(k, a), ha2, rfl⟩) h.1
      · exact ih h.2 ha2 hb2

/-- Writing feedback into the first matching entry leaves every id in
place. -/
theorem updateFeedbackFirst_ids (l : List QueryHistory) (qid : ℤ)
    (fb : String) :
    (updateFeedbackFirst l qid fb).map QueryHistory.id
      = l.map QueryHistory.id := by
  induction l with
  | nil => simp [updateFeedbackFirst]
  | cons q t ih =>
    simp only [updateFeedbackFirst]
    by_cases hq : (q.id == qid) = true
    · simp [hq]
    · simp [hq, ih]

/-- The seed of a `foldl max` is a lower bound of the result. -/
theorem le_foldl_max (is : List ℤ) : ∀ a : ℤ, a ≤ is.foldl max a := by
  induction is with
  | nil => intro a; exact le_refl a
  | cons b t ih => intro a; exact le_trans (le_max_left a b) (ih (max a b))

/-- Every element of the list is bounded by its `foldl max`. -/
theorem mem_le_foldl_max (is : List ℤ) :
    ∀ (a x : ℤ), x ∈ is → x ≤ is.foldl max a := by
  induction is with
  | nil => intro a x hx; cases hx
  | cons b t ih =>
    intro a x hx
    rcases List.mem_cons.mp hx with h1 | h2
    · rw [h1]; exact le_trans (le_max_right a b) (le_foldl_max t (max a b))
    · exact ih (max a b) x h2

/-- Every entry's id is strictly below `max(ids) + 1`. -/
theorem id_lt_maxIdPlusOne (hist : List QueryHistory) (e : QueryHistory)
    (he : e ∈ hist) : e.id < maxIdPlusOne hist := by
  cases hm : hist.map QueryHistory.id with
  | nil =>
    exact absurd (List.mem_map.mpr ⟨e, he, rfl⟩) (by rw [hm]; simp)
  | cons i is =>
    have hval : maxIdPlusOne hist = is.foldl max i + 1 := by
      unfold maxIdPlusOne; rw [hm]
    have hmem : e.id ∈ i :: is := by
      rw [← hm]; exact List.mem_map.mpr ⟨e, he, rfl⟩
    rw [hval]
    rcases List.mem_cons.mp hmem with h1 | h2
    · rw [h1]; have := le_foldl_max is i; omega
    · have := mem_le_foldl_max is i e.id h2; omega

/-- C1 counterexample: on a small `.csv` upload whose read raises, the
caught failure surfaces as Python `None` — not as a success/failure
tuple, contradicting the claim that every operation returns one. -/
theorem processFile_failure_not_a_tuple :
    isSuccessFailureTuple (processFilePy fBad 0) = false
      ∧ processFilePy fBad 0 = .noneValue := by decide

/-- C1 (amended): an exception raised by the wrapped library or API call
is caught inside each operation, which returns a non-exceptional failure
value — `None` for file parsing and the Firestore saves, a
`(success, message)` tuple for the auth operations, and a success-flagged
dictionary for LLM prompting — instead of propagating. -/
theorem service_exceptions_caught :
    (∀ (name : String) (size : ℕ) (e : String) (now : ℕ),
        processFile ⟨name, size, .raised e⟩ now = none) ∧
    (∀ e : String, fsSaveQuery true (.error e) = none) ∧
    (∀ e : String, (signUp true (.error e)).1 = (false, signUpErrorMessage e)) ∧
    (∀ e : String, (signIn true (.error e)).1 = (false, signInErrorMessage e)) ∧
    (∀ e : String, (queryOpenAIWithDataContext (.error e)).success = false) ∧
    (∀ e : String, saveVisualization true (.error e) = none) := by
  refine ⟨fun name size e now => ?_, fun e => rfl, fun e => rfl, fun e => rfl,
    fun e => rfl, fun e => rfl⟩
  simp [processFile, processRead, readOutcome]

/-- C2 counterexample: the sign-up failure message differs between the
`EMAIL_EXISTS` and `WEAK_PASSWORD` error classes, refuting the claim
that failure messages never depend on the class of the raised error. -/
theorem signUp_message_depends_on_error_class :
    (signUp true (.error "EMAIL_EXISTS")).1.1 = false
      ∧ (signUp true (.error "WEAK_PASSWORD")).1.1 = false
      ∧ (signUp true (.error "EMAIL_EXISTS")).1.2
          ≠ (signUp true (.error "WEAK_PASSWORD")).1.2 := by decide

/-- C2 (amended): every auth failure is surfaced as a
`(False, message)` pair, but the message does depend on the error class:
recognized Firebase error substrings map to fixed class-specific
messages, any other error to a generic message embedding the error
text. -/
theorem auth_failures_surfaced_with_class_messages :
    (∀ e : String, (signUp true (.error e)).1.1 = false) ∧
    (∀ e : String, strContains e "EMAIL_EXISTS" = true →
        (signUp true (.error e)).1.2
          = "An account with this email already exists") ∧
    (∀ e : String, strContains e "EMAIL_EXISTS" = false →
        strContains e "WEAK_PASSWORD" = false →
        strContains e "INVALID_EMAIL" = false →
        (signUp true (.error e)).1.2 = "Sign up failed: " ++ e) ∧
    (∀ e : String, (signIn true (.error e)).1.1 = false) ∧
    (∀ e : String, strContains e "INVALID_PASSWORD" = true →
        (signIn true (.error e)).1.2 = "Invalid password") := by
  refine ⟨fun e => rfl, fun e h => ?_, fun e h1 h2 h3 => ?_, fun e => rfl,
    fun e h => ?_⟩
  · simp [signUp, signUpErrorMessage, h]
  · simp [signUp, signUpErrorMessage, h1, h2, h3]
  · simp [signIn, signInErrorMessage, h]

/-- Witness for C2's amended theorem at a concrete error string. -/
theorem auth_failures_surfaced_with_class_messages_witness :
    strContains "EMAIL_EXISTS detail" "EMAIL_EXISTS" = true
      ∧ (signUp true (.error "EMAIL_EXISTS detail")).1.2
          = "An account with this email already exists" :=
  ⟨by decide, auth_failures_surfaced_with_class_messages.2.1
    "EMAIL_EXISTS detail" (by decide)⟩

/-- C3: `validate_file` accepts a file exactly when its name ends in
`.csv`, `.xlsx` or `.xls` and its size is within the maximum, and
`process_file` returns `None` for every file with none of these
extensions. -/
theorem validateFile_extensions_and_size :
    (∀ f : UploadedFile,
      validateFile f = true ↔
        ((strEndsWith f.name ".csv" = true ∨ strEndsWith f.name ".xlsx" = true
            ∨ strEndsWith f.name ".xls" = true)
          ∧ f.size ≤ maxFileSize)) ∧
    (∀ (f : UploadedFile) (now : ℕ),
      strEndsWith f.name ".csv" = false →
      strEndsWith f.name ".xlsx" = false →
      strEndsWith f.name ".xls" = false →
      processFile f now = none) := by
  constructor
  · intro f
    unfold validateFile
    simp only [supportedFormats, List.any_cons, List.any_nil, Bool.or_false]
    by_cases hs : f.size > maxFileSize
    · rw [if_pos hs]
      simp only [Bool.false_eq_true, false_iff, not_and]
      intro _
      omega
    · rw [if_neg hs]
      cases hcsv : strEndsWith f.name ".csv" <;>
        cases hxlsx : strEndsWith f.name ".xlsx" <;>
          cases hxls : strEndsWith f.name ".xls" <;>
            simp [hcsv, hxlsx, hxls] <;> omega
  · intro f now h1 h2 h3
    have hval : validateFile f = false := by
      unfold validateFile
      split
      · rfl
      · rw [if_pos]
        simp [supportedFormats, h1, h2, h3]
    simp [processFile, hval]

/-- Witness for C3 at a concrete rejected file name. -/
theorem validateFile_extensions_and_size_witness :
    strEndsWith "notes.txt" ".csv" = false
      ∧ strEndsWith "notes.txt" ".xlsx" = false
      ∧ strEndsWith "notes.txt" ".xls" = false
      ∧ processFile ⟨"notes.txt", 10, .failed⟩ 0 = none :=
  ⟨by decide, by decide, by decide,
    validateFile_extensions_and_size.2 ⟨"notes.txt", 10, .failed⟩ 0
      (by decide) (by decide) (by decide)⟩

/-- C8: a file larger than 200 * 1024 * 1024 bytes is rejected by
`validate_file` whatever its name, and `process_file` returns `None`
whatever reading its data would do. -/
theorem oversizedFile_rejected (name : String) (size : ℕ) (read : ReadResult)
    (now : ℕ) (h : size > 200 * 1024 * 1024) :
    validateFile ⟨name, size, read⟩ = false
      ∧ processFile ⟨name, size, read⟩ now = none := by
  have hv : validateFile ⟨name, size, read⟩ = false := by
    unfold validateFile
    rw [if_pos]
    exact h
  exact ⟨hv, by simp [processFile, hv]⟩

/-- Witness for C8 at a concrete oversized file. -/
theorem oversizedFile_rejected_witness :
    validateFile ⟨"big.csv", 200 * 1024 * 1024 + 1, .failed⟩ = false
      ∧ processFile ⟨"big.csv", 200 * 1024 * 1024 + 1, .failed⟩ 0 = none :=
  oversizedFile_rejected "big.csv" (200 * 1024 * 1024 + 1) .failed 0
    (by omega)

/-- C10: `generate_visualizations` yields at most three suggestions and
none for an empty file dictionary; `generate_code_suggestions` yields at
most three and always starts with the basic-overview suggestion. -/
theorem dataService_suggestion_bounds :
    (∀ (files : List (String × ProcessedFile)) (q : String),
        (generateVisualizations files q).length ≤ 3) ∧
    (∀ q : String, generateVisualizations [] q = []) ∧
    (∀ files : List (String × ProcessedFile),
        (generateCodeSuggestions files).length ≤ 3) ∧
    (∀ files : List (String × ProcessedFile),
        (generateCodeSuggestions files).head?
          = some basicOverviewSuggestion) := by
  refine ⟨fun files q => ?_, fun q => rfl, fun files => ?_, fun files => ?_⟩
  · unfold generateVisualizations
    split
    · simp
    · exact List.length_take_le _ _
  · exact List.length_take_le _ _
  · rfl

/-- C4: for a rectangular table, `_calculate_data_quality` reports the
number of null cells, counts duplicated rows so that they and the
distinct rows add up to all rows, and computes the two scores by the
stated formulas, both zero when the table has no cells. -/
theorem dataQuality_aggregates (df : DataFrame) (h : df.Rect) :
    (calculateDataQuality df).total_nulls = numNullCells df ∧
    (calculateDataQuality df).duplicate_rows + distinctRowCount df
      = df.rows.length ∧
    (df.rows.length * df.columns.length ≠ 0 →
      (calculateDataQuality df).completeness_score
        = (1 - (numNullCells df : ℚ)
            / ((df.rows.length * df.columns.length : ℕ) : ℚ)) * 100 ∧
      (calculateDataQuality df).uniqueness_score
        = (df.nuniqueSum : ℚ)
            / ((df.rows.length * df.columns.length : ℕ) : ℚ) * 100) ∧
    (df.rows.length * df.columns.length = 0 →
      (calculateDataQuality df).completeness_score = 0 ∧
      (calculateDataQuality df).uniqueness_score = 0) := by
  have ht := totalNulls_eq_numNullCells df h
  refine ⟨ht, ?_, ?_, ?_⟩
  · have hd := dupCount_add_card df.rows []
    rw [List.toFinset_nil, Finset.sdiff_empty] at hd
    exact hd
  · intro hc
    have hpos : df.rows.length * df.columns.length > 0 := Nat.pos_of_ne_zero hc
    constructor
    · simp only [calculateDataQuality]
      rw [if_pos hpos, ht]
    · simp only [calculateDataQuality]
      rw [if_pos hpos]
  · intro hc
    have hneg : ¬ df.rows.length * df.columns.length > 0 := by omega
    constructor
    · simp only [calculateDataQuality]
      rw [if_neg hneg]
    · simp only [calculateDataQuality]
      rw [if_neg hneg]

/-- Witness for C4 at a concrete three-row table. -/
theorem dataQuality_aggregates_witness :
    dfEx.Rect ∧ (calculateDataQuality dfEx).total_nulls = numNullCells dfEx :=
  ⟨by decide, (dataQuality_aggregates dfEx (by decide)).1⟩

/-- C5: `get_numeric_columns` returns exactly the columns whose recorded
dtype string contains `int` or `float`, `get_categorical_columns` exactly
those whose dtype string is `object`, and (with the dictionary's keys
distinct) no column is in both. -/
theorem columnTypePartition (pf : ProcessedFile) :
    (∀ c : String, c ∈ getNumericColumns pf ↔
      ∃ st : ColStats, (c, st) ∈ pf.column_statistics
        ∧ (strContains st.type "int" = true
            ∨ strContains st.type "float" = true)) ∧
    (∀ c : String, c ∈ getCategoricalColumns pf ↔
      ∃ st : ColStats, (c, st) ∈ pf.column_statistics ∧ st.type = "object") ∧
    ((pf.column_statistics.map Prod.fst).Nodup →
      ∀ c : String, c ∈ getNumericColumns pf →
        c ∉ getCategoricalColumns pf) := by
  have hnum : ∀ c : String, c ∈ getNumericColumns pf ↔
      ∃ st : ColStats, (c, st) ∈ pf.column_statistics
        ∧ (strContains st.type "int" = true
            ∨ strContains st.type "float" = true) := by
    intro c
    unfold getNumericColumns
    constructor
    · intro hc
      obtain ⟨p, hp, hpc⟩ := List.mem_map.mp hc
      obtain ⟨hpl, hpred⟩ := List.mem_filter.mp hp
      refine ⟨p.2, ?_, Bool.or_eq_true_iff.mp hpred⟩
      have : (c, p.2) = p := by rw [← hpc]
      exact this ▸ hpl
    · rintro ⟨st, hmem, hpred⟩
      apply List.mem_map.mpr
      refine ⟨(c, st), List.mem_filter.mpr ⟨hmem, ?_⟩, rfl⟩
      rcases hpred with h | h <;> simp [h]
  have hcat : ∀ c : String, c ∈ getCategoricalColumns pf ↔
      ∃ st : ColStats, (c, st) ∈ pf.column_statistics ∧ st.type = "object" := by
    intro c
    unfold getCategoricalColumns
    constructor
    · intro hc
      obtain ⟨p, hp, hpc⟩ := List.mem_map.mp hc
      obtain ⟨hpl, hpred⟩ := List.mem_filter.mp hp
      refine ⟨p.2, ?_, by simpa using hpred⟩
      have : (c, p.2) = p := by rw [← hpc]
      exact this ▸ hpl
    · rintro ⟨st, hmem, hpred⟩
      apply List.mem_map.mpr
      exact ⟨(c, st), List.mem_filter.mpr ⟨hmem, by simp [hpred]⟩, rfl⟩
  refine ⟨hnum, hcat, ?_⟩
  intro hnd c hn hc
  obtain ⟨st1, hm1, hp1⟩ := (hnum c).mp hn
  obtain ⟨st2, hm2, hp2⟩ := (hcat c).mp hc
  have hst : st1 = st2 := keyVal_unique hnd hm1 hm2
  rw [hst, hp2] at hp1
  rcases hp1 with h | h
  · exact absurd h (by decide)
  · exact absurd h (by decide)

/-- Witness for C5 on the concrete processed file `pfEx`. -/
theorem columnTypePartition_witness :
    (pfEx.column_statistics.map Prod.fst).Nodup
      ∧ "a" ∈ getNumericColumns pfEx
      ∧ "a" ∉ getCategoricalColumns pfEx :=
  ⟨by decide, by decide,
    (columnTypePartition pfEx).2.2 (by decide) "a" (by decide)⟩

/-- C6: on a non-empty numeric series the detailed statistics carry the
0.25/0.5/0.75 quantiles as q1, q2, q3 and the reported median equals the
reported q2; on an empty series every statistic is `None`. -/
theorem quartiles_and_median (vals : List (Option ℚ)) :
    (vals ≠ [] →
      (detailedNumericStats vals).quartiles
        = { q1 := seriesQuantile vals (1/4)
            q2 := seriesQuantile vals (1/2)
            q3 := seriesQuantile vals (3/4) } ∧
      (detailedNumericStats vals).median
        = (detailedNumericStats vals).quartiles.q2) ∧
    (vals = [] →
      detailedNumericStats vals
        = { mean := none, median := none, min := none, max := none
            quartiles := { q1 := none, q2 := none, q3 := none } }) := by
  constructor
  · intro hne
    have hie : vals.isEmpty = false := by
      cases vals
      · exact absurd rfl hne
      · rfl
    unfold detailedNumericStats
    simp only [hie, Bool.false_eq_true, if_false]
    exact ⟨trivial, seriesMedian_eq_quantile_half vals⟩
  · intro he
    subst he
    rfl

/-- Witness for C6 on a concrete two-value series. -/
theorem quartiles_and_median_witness :
    ([some 1, some 2] : List (Option ℚ)) ≠ []
      ∧ (detailedNumericStats [some 1, some 2]).median
          = (detailedNumericStats [some 1, some 2]).quartiles.q2 :=
  ⟨by decide, ((quartiles_and_median [some 1, some 2]).1 (by decide)).2⟩

/-- C7 (code bug): `save_query_history` promises to save to Firestore
and return the query id, but `AuthService` defines no `get_user_uid`, so
for an authenticated user the call appends locally and then raises
`AttributeError` — no Firestore write is issued and nothing returned —
and `get_query_history`/`get_query_by_id` raise instead of consulting
Firestore; only the unauthenticated local paths behave as the claim
says. -/
theorem authenticated_session_raises_before_firestore :
    (saveQueryHistory stAuth "q" "r" "f" 0).1
        = .error attributeErrorGetUserUid
      ∧ (saveQueryHistory stAuth "q" "r" "f" 0).2.query_history
          = stAuth.query_history
            ++ [{ id := 0, query := "q", response := "r", file_name := "f"
                  timestamp := 0, feedback := none }]
      ∧ (saveQueryHistory stAuth "q" "r" "f" 0).2.firestore_writes
          = stAuth.firestore_writes
      ∧ getQueryHistory stAuth 10 none = .error attributeErrorGetUserUid
      ∧ getQueryById stAuth 0 = .error attributeErrorGetUserUid
      ∧ (saveQueryHistory (initSession false none) "q" "r" "f" 0).1 = .ok 0
      ∧ getQueryHistory (initSession false none) 10 none
          = .ok (localQueryHistory (initSession false none) 10 none) :=
  ⟨rfl, rfl, rfl, rfl, rfl, rfl, rfl⟩

/-- C9 counterexample: importing data whose second entry carries an
unparseable timestamp aborts the loop after the first entry was stored,
leaving an entry with id 5 while `current_query_id` is still 0 — the
invariant fails after this `import_history` call; and on an
authenticated state `save_query_history` raises `AttributeError` instead
of returning the id it assigned. -/
theorem importHistory_breaks_invariant :
    (SessionInv (initSession false none)
      ∧ (importHistory (initSession false none) importBad).1 = false
      ∧ ¬ SessionInv (importHistory (initSession false none) importBad).2)
    ∧ (saveQueryHistory stAuth "q0" "r0" "f0" 0).1
        = .error attributeErrorGetUserUid :=
  ⟨by decide, rfl⟩

/-- C9 (amended): every stored id stays strictly below
`current_query_id` initially and across `save_query_history` (whose
local append and counter bump precede the authenticated raise),
`submit_feedback`, `clear_history` and every `import_history` call that
succeeds (returns `True`); `save_query_history` appends one entry
carrying `current_query_id` without touching earlier entries, and
returns exactly that id when the user is unauthenticated (for an
authenticated user it raises before returning).  A failed import can
leave the invariant broken. -/
theorem session_id_invariant :
    (∀ (a : Bool) (u : Option String), SessionInv (initSession a u)) ∧
    (∀ (st : SessionState) (q r f : String) (now : ℕ),
      (saveQueryHistory st q r f now).2.query_history
        = st.query_history
          ++ [{ id := st.current_query_id, query := q
                response := r, file_name := f, timestamp := now
                feedback := none }] ∧
      (st.authenticated = false →
        (saveQueryHistory st q r f now).1 = .ok st.current_query_id)) ∧
    (∀ (st : SessionState) (q r f : String) (now : ℕ),
      SessionInv st → SessionInv (saveQueryHistory st q r f now).2) ∧
    (∀ (st : SessionState) (qid : ℤ) (t c : String) (now : ℕ),
      SessionInv st → SessionInv (submitFeedback st qid t c now).2) ∧
    (∀ st : SessionState, SessionInv (clearHistory st).2) ∧
    (∀ (st : SessionState) (d : ImportData),
      SessionInv st → (importHistory st d).1 = true →
      SessionInv (importHistory st d).2) := by
  refine ⟨?_, ?_, ?_, ?_, ?_, ?_⟩
  · intro a u e he
    simp [initSession] at he
  · intro st q r f now
    constructor
    · cases hauth : st.authenticated
      · simp [saveQueryHistory, hauth]
      · simp [saveQueryHistory, hauth]
    · intro hauth
      simp [saveQueryHistory, hauth]
  · intro st q r f now hInv
    have key : ∀ e : QueryHistory,
        e ∈ st.query_history
          ++ [{ id := st.current_query_id, query := q, response := r
                file_name := f, timestamp := now, feedback := none }] →
        e.id < st.current_query_id + 1 := by
      intro e he
      rcases List.mem_append.mp he with h1 | h2
      · have := hInv e h1
        omega
      · rw [List.mem_singleton.mp h2]
        show st.current_query_id < st.current_query_id + 1
        omega
    have hq : (saveQueryHistory st q r f now).2.query_history
        = st.query_history
          ++ [{ id := st.current_query_id, query := q, response := r
                file_name := f, timestamp := now, feedback := none }] := by
      cases hauth : st.authenticated
      · simp [saveQueryHistory, hauth]
      · simp [saveQueryHistory, hauth]
    have hc : (saveQueryHistory st q r f now).2.current_query_id
        = st.current_query_id + 1 := by
      cases hauth : st.authenticated
      · simp [saveQueryHistory, hauth]
      · simp [saveQueryHistory, hauth]
    intro e he
    rw [hq] at he
    rw [hc]
    exact key e he
  · intro st qid t c now hInv
    have hupd : ∀ e : QueryHistory,
        e ∈ updateFeedbackFirst st.query_history qid t →
        e.id < st.current_query_id := by
      intro e he2
      have hm : e.id ∈ (updateFeedbackFirst st.query_history qid t).map
          QueryHistory.id := List.mem_map.mpr ⟨e, he2, rfl⟩
      rw [updateFeedbackFirst_ids] at hm
      obtain ⟨e2, he3, hid⟩ := List.mem_map.mp hm
      rw [← hid]
      exact hInv e2 he3
    intro e he
    cases hauth : st.authenticated
    · simp [submitFeedback, hauth] at he ⊢
      exact hupd e he
    · simp [submitFeedback, hauth] at he ⊢
      exact hInv e he
  · intro st e he
    cases hauth : st.authenticated
    · simp [clearHistory, hauth] at he
    · simp [clearHistory, hauth] at he
  · intro st d hInv hok e he
    cases hq : d.query_history with
    | none =>
      cases hf : d.feedback_data with
      | none =>
        simp [importHistory, hq, hf] at he ⊢
        exact hInv e he
      | some fd =>
        simp [importHistory, hq, hf] at he ⊢
        exact hInv e he
    | some raws =>
      by_cases hr : (importLoop raws []).1 = true
      · cases hf : d.feedback_data with
        | none =>
          simp [importHistory, hq, hf, hr] at he ⊢
          exact id_lt_maxIdPlusOne _ e he
        | some fd =>
          simp [importHistory, hq, hf, hr] at he ⊢
          exact id_lt_maxIdPlusOne _ e he
      · simp [importHistory, hq, hr] at hok

/-- Witness for C9's amended theorem on a concrete unauthenticated
state. -/
theorem session_id_invariant_witness :
    SessionInv (initSession false none)
      ∧ SessionInv
          (saveQueryHistory (initSession false none) "q" "r" "f" 0).2 :=
  ⟨by decide,
    session_id_invariant.2.2.1 (initSession false none) "q" "r" "f" 0
      (by decide)⟩

end DataSierra
